import Mathlib

/-!
Shallow embedding of the calendar-widgets repository.

Source files embedded here:
* `src/unnamed/part_000` — the bundled module: `getDaysInMonth`, `isValidYear`,
  `formatDate`, `listDaysInMonth`, the month-name tables (`months$2`, `months$1`),
  the `locale` table, and a bundled duplicate `getCalendarYear` (hardcoded English,
  inverted validation branch, free identifier `months`).
* `src/workspaces/calendar-widgets/src/utils/getCalendarYear.js` — the public
  `getCalendarYear`, which validates via `isValidYear` and builds the calendar
  object from `locale.en.months` with `reduceRight`.

Host primitives (ECMAScript `Date`) are modelled explicitly:
* the two-digit-year rule of the `Date(year, month, day)` constructor
  (years 0–99 are interpreted as 1900–1999);
* date component arithmetic in the proleptic Gregorian calendar;
* the finite representable range of host dates (time values within ±8.64e15 ms
  of the epoch, i.e. dates from -271821-04-20 to +275760-09-13, the boundary
  taken for a host clock at UTC), beyond which date methods yield NaN —
  modelled as `Option.none` both for the `getFullYear` readback of
  `isValidYear` and for the `getDate` day counts of `getDaysInMonth` and
  `listDaysInMonth`.
The locale-sensitive host renderer `toLocaleDateString` is environment-dependent
(spec §4.3, §9), so it is carried as an explicit `HostEnv` parameter.
-/

namespace CalendarWidgets

/-- ECMAScript two-digit-year rule of the `Date(year, month, day)` constructor:
an integer year in [0, 99] is interpreted as 1900 + year; all other years are
taken as given. -/
def jsYearAdjust (y : Int) : Int :=
  if 0 ≤ y ∧ y ≤ 99 then y + 1900 else y

/-- Leap-year rule of the proleptic Gregorian calendar as ECMAScript date
arithmetic implements it: divisible by 4, and not by 100 unless by 400. -/
def jsLeap (y : Int) : Bool :=
  y % 4 == 0 && (y % 100 != 0 || y % 400 == 0)

/-- Number of days of the month with 0-indexed month number `m0`
(0 = January, …, 11 = December) of year `y` in the proleptic Gregorian
calendar. -/
def daysInGregorianMonth (y : Int) (m0 : Int) : Nat :=
  if m0 = 1 then (if jsLeap y then 29 else 28)
  else if m0 = 3 ∨ m0 = 5 ∨ m0 = 8 ∨ m0 = 10 then 30
  else 31

/-- Whether the last day of the (0-indexed) month `m0` of year `y` is a
representable host date. The `Date` range is ±8.64e15 ms around the epoch:
from -271821-04-20 to +275760-09-13 (boundary at UTC, matching the bound
`dateFullYear` uses for February 1 dates). A last-day-of-month date is inside
that range iff the year is strictly inside the range, or it is the first year
and the month is April (whose last day, April 30, lies past April 20) or
later, or it is the last year and the month is August (whose last day,
August 31, lies before September 13) or earlier. -/
def jsDateRepresentable (y m0 : Int) : Prop :=
  (-271820 ≤ y ∧ y ≤ 275759) ∨ (y = -271821 ∧ 3 ≤ m0) ∨ (y = 275760 ∧ m0 ≤ 7)

instance (y m0 : Int) : Decidable (jsDateRepresentable y m0) := by
  unfold jsDateRepresentable
  infer_instance

/-- Model of `new Date(year, month, 0).getDate()`: day 0 of the (0-indexed,
possibly out-of-range) month `month` is the last day of the preceding month
after ECMAScript month normalisation (`year + ⌊month/12⌋`, `month mod 12`), and
`getDate` reads back its day of month, i.e. the day count of that preceding
month. The two-digit-year rule applies to `year`. When the resulting date
falls outside the representable `Date` range the time value is clipped to NaN
and `getDate` returns NaN, modelled as `none`. -/
def jsDateDayZeroGetDate (year month : Int) : Option Nat :=
  let y0 := jsYearAdjust year
  let ym := y0 + month.fdiv 12
  let mn := month.emod 12
  let py := if mn = 0 then ym - 1 else ym
  let pm := if mn = 0 then 11 else mn - 1
  if jsDateRepresentable py pm then some (daysInGregorianMonth py pm) else none

/-- Model of `new Date(year, 1, 1).getFullYear()` as used by `isValidYear`:
the normalised year of February 1 of the (two-digit-adjusted) year. `none`
models NaN, which `getFullYear` returns when the date lies outside the host
`Date` range (about years −271820 to 275760). -/
def dateFullYear (year : Int) : Option Int :=
  let y := jsYearAdjust year
  if -271820 ≤ y ∧ y ≤ 275760 then some y else none

/-- Reading the `length` property of a JS number: number values have no
`length` property, so the access yields `undefined`, modelled as `none`.
This is the central slip of `isValidYear` in the source (part_000 line 21):
`y` is a number, not a string, so `y.length` is `undefined` for every input. -/
def jsNumberLength (_y : Int) : Option Nat :=
  none

/-- Translated from part_000 lines 18–25: build `new Date(year, 1, 1)`, read
back `y = date.getFullYear()`, return false when `isNaN(y) || y.length !== 4`,
else true. The `isNaN` disjunct is the `none` branch of the readback; the
length test compares the (undefined) `length` property of the number `y`
with 4. -/
def isValidYear (year : Int) : Bool :=
  match dateFullYear year with
  | none => false
  | some y => if jsNumberLength y != some 4 then false else true

/-- The host environment: the locale-sensitive rendering
`new Date(y, mIdx, d).toLocaleDateString(localeTag, options)` with options
`{year: numeric, month: 2-digit, day: 2-digit}`, as a function of the locale
tag (`none` = argument omitted, host default locale) and the raw constructor
arguments. The spec (§4.3, §9) leaves this output environment-dependent, so it
is a parameter of the embedding rather than a fixed function. -/
structure HostEnv where
  render : Option String → Int → Int → Int → String

/-- A sample host environment (used only to instantiate theorems at concrete
inputs): a US-style default locale printing month/day/year. -/
def defaultHostEnv : HostEnv :=
  { render := fun _ y m d => toString (m + 1) ++ "/" ++ toString d ++ "/" ++ toString y }

/-- Translated from part_000 lines 36–40: `formatDate(month, day, year, locale)`
constructs `new Date(year, month - 1, day)` and renders it with
`toLocaleDateString(locale, {year: numeric, month: 2-digit, day: 2-digit})`. -/
def formatDate (env : HostEnv) (month day year : Int) (localeTag : Option String) : String :=
  env.render localeTag year (month - 1) day

/-- Translated from part_000 lines 8–10: `getDaysInMonth(year, month)` is
`new Date(year, month, 0).getDate()`, a number that is NaN (`none`) when the
date is outside the representable host range. -/
def getDaysInMonth (year month : Int) : Option Nat :=
  jsDateDayZeroGetDate year month

/-- Translated from part_000 lines 49–59: `listDaysInMonth(month, year)`
computes `daysInMonth = new Date(year, month, 0).getDate()` and pushes
`formatDate(month, day, year)` (locale argument omitted) for
`day = 1, …, daysInMonth` in ascending order. When `daysInMonth` is NaN the
loop guard `day <= daysInMonth` is false on the first test and the loop runs
zero times, leaving the empty array. -/
def listDaysInMonth (env : HostEnv) (month year : Int) : List String :=
  match jsDateDayZeroGetDate year month with
  | none => []
  | some daysInMonth =>
      (List.range daysInMonth).foldl
        (fun dates (day0 : Nat) => dates ++ [formatDate env month ((day0 : Int) + 1) year none]) []

/-- `months$2` of part_000 lines 61–74: the English month names. -/
def monthsEn : List String :=
  ["January", "February", "March", "April", "May", "June",
   "July", "August", "September", "October", "November", "December"]

/-- `months$1` of part_000 lines 76–89: the Spanish month names. -/
def monthsEs : List String :=
  ["enero", "febrero", "marzo", "abril", "mayo", "junio",
   "julio", "agosto", "septiembre", "octubre", "noviembre", "diciembre"]

/-- One locale entry of the `locale` table: its ordered month-name list. -/
structure LocaleEntry where
  months : List String

/-- Shape of the `locale` table of part_000 lines 91–98. -/
structure LocaleTable where
  en : LocaleEntry
  es : LocaleEntry

/-- Translated from part_000 lines 91–98: `locale = {en: {months: months$2},
es: {months: months$1}}`. -/
def locale : LocaleTable :=
  { en := { months := monthsEn }, es := { months := monthsEs } }

/-- Model of JS `String.prototype.toLowerCase`: lower-case every character
(ASCII case mapping, which coincides with the JS mapping on every string this
repository lower-cases). -/
def jsToLowerCase (s : String) : String :=
  ⟨s.data.map Char.toLower⟩

/-- One month's record of a calendar year: `{count, collection}`. The count is
whatever number `getDaysInMonth` returned (NaN, modelled `none`, when out of
the host date range). -/
structure MonthRecord where
  count : Option Nat
  collection : List String

/-- The `{error: {body}}` object returned on failed validation. -/
structure ValidationError where
  body : String

/-- Result of the public `getCalendarYear`: either the `{error: {body}}` object
or the calendar object. The calendar object is an association list in key
insertion order (JS objects preserve string-key insertion order, which is what
the spec's key-iteration claims are about). -/
inductive CalendarResult where
  | error (e : ValidationError)
  | calendar (entries : List (String × MonthRecord))

/-- The validation error message of both `getCalendarYear` implementations,
transcribed from the source (the single source literal is split into chunks
only so that the substring lemmas below can name its parts):
`The argument passed to [backtick]calendar('YYYY')[backtick] must be a valid
year between 1900 and 2100. You passed {year}.` with the year interpolated by
JS default number-to-string conversion (decimal, minus sign for negatives),
which `Int.toString` matches. -/
def errorBody (year : Int) : String :=
  "The argument passed to `calendar('YYYY')` must be a valid year " ++
    ("between 1900 and 2100" ++ (". You passed " ++ (toString year ++ ".")))

/-- Translated from getCalendarYear.js lines 22–28 (the non-error branch of the
public `getCalendarYear`): `locale.en.months.reduceRight((collector, current) =>
({[current.toLowerCase()]: {count: getDaysInMonth(year, idx + 1), collection:
listDaysInMonth(year, idx + 1)}, ...collector}), {})` where
`idx = locale.en.months.indexOf(current)`. Note the source really passes
`(year, idx + 1)` to `listDaysInMonth`, whose parameters are `(month, year)` —
the arguments are swapped there; the translation keeps that call as-is.
Each step makes an object whose first key is the lower-cased current name
followed by the collector's keys, which the association list mirrors. -/
def buildCalendarYear (env : HostEnv) (year : Int) : List (String × MonthRecord) :=
  locale.en.months.foldr
    (fun current collector =>
      (jsToLowerCase current,
        { count := getDaysInMonth year (locale.en.months.indexOf current + 1 : Int)
          collection := listDaysInMonth env year (locale.en.months.indexOf current + 1 : Int) })
      :: collector)
    []

/-- Translated from src/workspaces/calendar-widgets/src/utils/getCalendarYear.js
lines 13–29: if `!isValidYear(year)` return the `{error: {body}}` object, else
build the calendar object from `locale.en.months`. -/
def getCalendarYear (env : HostEnv) (year : Int) : CalendarResult :=
  if !isValidYear year then
    CalendarResult.error { body := errorBody year }
  else
    CalendarResult.calendar (buildCalendarYear env year)

/-- A thrown JS runtime error (the embedding needs only ReferenceError). -/
inductive JsError where
  | referenceError (name : String)

/-- Translated from part_000 lines 107–123, the bundled duplicate
`getCalendarYear`: `if (isValidYear(year))` return the `{error: {body}}` object
(note: no negation — the polarity is inverted relative to the workspace file);
otherwise evaluate `months.reduceRight(...)`. The identifier `months` is not
bound anywhere in part_000 (only `months$2`, `months$1` and `locale` are), so
evaluating that branch throws `ReferenceError: months is not defined` before
any calendar entry is built. -/
def getCalendarYearBundled (year : Int) : Except JsError CalendarResult :=
  if isValidYear year then
    Except.ok (CalendarResult.error { body := errorBody year })
  else
    Except.error (JsError.referenceError "months")

/-- Modelled from the spec (§4.1): the validation algorithm as the spec words
it — construct a date from the input (month=1, day=1), read back the
normalised year; valid iff the readback is not NaN and its decimal string
representation has exactly 4 characters. -/
def isValidYearSpec (year : Int) : Bool :=
  match dateFullYear year with
  | none => false
  | some y => (toString y).length == 4

/-- Modelled from the spec (§4.2, §8): the standard Gregorian days-per-month
table for a 1-indexed month, with February 29 days when the year is divisible
by 4, except when divisible by 100 unless also divisible by 400. -/
def specLeapYear (y : Int) : Bool :=
  y % 4 == 0 && (y % 100 != 0 || y % 400 == 0)

/-- Modelled from the spec (§4.2, §8): days per month of the proleptic
Gregorian calendar, 1-indexed month. -/
def specDaysInMonth (year month : Int) : Nat :=
  if month = 2 then (if specLeapYear year then 29 else 28)
  else if month = 4 ∨ month = 6 ∨ month = 9 ∨ month = 11 then 30
  else 31

/-! ### Helper lemmas -/

/-- `isValidYear` is constantly false: in both branches of the source's test,
`y.length` is the `length` property of a number, hence `undefined`, and
`undefined !== 4` holds. -/
theorem isValidYear_false (year : Int) : isValidYear year = false := by
  unfold isValidYear
  cases dateFullYear year <;> rfl

/-- String append is associative. -/
theorem string_append_assoc (a b c : String) : (a ++ b) ++ c = a ++ (b ++ c) := by
  cases a with
  | mk la =>
    cases b with
    | mk lb =>
      cases c with
      | mk lc =>
        show String.mk ((la ++ lb) ++ lc) = String.mk (la ++ (lb ++ lc))
        rw [List.append_assoc]

/-- The push loop of `listDaysInMonth` appends one formatted string per day. -/
theorem foldl_push_eq_map (f : Nat → String) (l : List Nat) :
    ∀ init : List String,
      l.foldl (fun acc d => acc ++ [f d]) init = init ++ l.map f := by
  induction l with
  | nil => intro init; simp
  | cons d l ih => intro init; simp [List.foldl, ih]

/-- When the day count is a number (not NaN), `listDaysInMonth` is the
ascending list of formatted dates for days 1 … daysInMonth. -/
theorem listDaysInMonth_eq_map (env : HostEnv) (month year : Int) (n : Nat)
    (h : jsDateDayZeroGetDate year month = some n) :
    listDaysInMonth env month year
      = (List.range n).map
          (fun day0 : Nat => formatDate env month ((day0 : Int) + 1) year none) := by
  unfold listDaysInMonth
  rw [h]
  exact (foldl_push_eq_map _ _ []).trans (List.nil_append _)

/-- Day 0 of the (1-indexed) months 1–12 is the last day of that month: on this
range the `Date`-normalisation arithmetic collapses to the Gregorian table for
the two-digit-adjusted year, guarded by representability of the date. -/
theorem jsDateDayZero_months (year month : Int) (h2 : 1 ≤ month) (h3 : month ≤ 12) :
    jsDateDayZeroGetDate year month
      = if jsDateRepresentable (jsYearAdjust year) (month - 1)
        then some (daysInGregorianMonth (jsYearAdjust year) (month - 1))
        else none := by
  unfold jsDateDayZeroGetDate
  interval_cases month <;>
    norm_num [show Int.fdiv 1 12 = 0 from by decide, show Int.fdiv 2 12 = 0 from by decide,
      show Int.fdiv 3 12 = 0 from by decide, show Int.fdiv 4 12 = 0 from by decide,
      show Int.fdiv 5 12 = 0 from by decide, show Int.fdiv 6 12 = 0 from by decide,
      show Int.fdiv 7 12 = 0 from by decide, show Int.fdiv 8 12 = 0 from by decide,
      show Int.fdiv 9 12 = 0 from by decide, show Int.fdiv 10 12 = 0 from by decide,
      show Int.fdiv 11 12 = 0 from by decide, show Int.fdiv 12 12 = 1 from by decide]

/-! ### The claims -/

/-- C1. The claim says every year in [1900, 2100] yields a CalendarYear with 12
correct month entries; the code instead returns the ValidationError object at
the failing input 2023 (as it does for every year), because `isValidYear`
tests the `length` property of a number — contradicting the doc comments of
both `isValidYear` and `getCalendarYear` in the source. This theorem evaluates
the code at the failing input. -/
theorem claimC1_valid_year_still_rejected (env : HostEnv) :
    isValidYear 2023 = false ∧
      getCalendarYear env 2023 = CalendarResult.error { body := errorBody 2023 } :=
  ⟨by decide, rfl⟩

/-- C2. The claim states the spec's validation algorithm (readback not NaN and
its decimal string representation of length 4). At the failing input 2023 the
spec algorithm accepts (the readback 2023 prints as the 4-character "2023"),
but the code returns false: it reads the `length` property of the numeric
readback, which is `undefined`, never 4. -/
theorem claimC2_length_read_from_number : isValidYearSpec 2023 = true ∧ isValidYear 2023 = false := by
  decide

/-- C3. For every input year `isValidYear` returns false, and consequently the
public `getCalendarYear` returns the ValidationError object for every input:
the calendar-building branch is unreachable. -/
theorem claimC3_validator_constantly_false (env : HostEnv) (year : Int) :
    isValidYear year = false ∧
      getCalendarYear env year = CalendarResult.error { body := errorBody year } := by
  refine ⟨isValidYear_false year, ?_⟩
  unfold getCalendarYear
  rw [isValidYear_false year]
  rfl

/-- C4. In the bundled duplicate `getCalendarYear` of part_000 the validation
branches are inverted: it returns the error object exactly when
`isValidYear(year)` is true, and when `isValidYear(year)` is false it proceeds
into the calendar-building expression (whose evaluation then throws a
ReferenceError, since the identifier `months` is unbound in the bundle). -/
theorem claimC4_bundled_branches_inverted (year : Int) :
    (getCalendarYearBundled year
        = Except.ok (CalendarResult.error { body := errorBody year })
      ↔ isValidYear year = true) ∧
      (isValidYear year = false →
        getCalendarYearBundled year = Except.error (JsError.referenceError "months")) := by
  unfold getCalendarYearBundled
  cases h : isValidYear year <;> simp

/-- C4 witness: at year 2023 validation is false and the bundled function
reaches the build expression, throwing the ReferenceError. -/
theorem claimC4_witness :
    isValidYear 2023 = false ∧
      getCalendarYearBundled 2023 = Except.error (JsError.referenceError "months") :=
  ⟨by decide, (claimC4_bundled_branches_inverted 2023).2 (by decide)⟩

/-- C5. Whenever validation fails, the public `getCalendarYear` returns the
structured value with shape error/body (no exception), the body being exactly
the transcribed message with the year interpolated by its default string
conversion; that body contains the substring "between 1900 and 2100" and the
offending year's literal decimal rendering. -/
theorem claimC5_validation_error_shape (env : HostEnv) (year : Int)
    (h : isValidYear year = false) :
    getCalendarYear env year = CalendarResult.error { body := errorBody year } ∧
      (∃ p q, errorBody year = p ++ ("between 1900 and 2100" ++ q)) ∧
      (∃ p q, errorBody year = p ++ (toString year ++ q)) := by
  refine ⟨?_, ?_, ?_⟩
  · unfold getCalendarYear
    rw [h]
    rfl
  · exact ⟨"The argument passed to `calendar('YYYY')` must be a valid year ",
      ". You passed " ++ (toString year ++ "."), rfl⟩
  · refine ⟨"The argument passed to `calendar('YYYY')` must be a valid year " ++
      ("between 1900 and 2100" ++ ". You passed "), ".", ?_⟩
    unfold errorBody
    rw [string_append_assoc, string_append_assoc]

/-- C5 witness at the concrete invalid year 1899 in a concrete host
environment. -/
theorem claimC5_witness :
    isValidYear 1899 = false ∧
      (getCalendarYear defaultHostEnv 1899
          = CalendarResult.error { body := errorBody 1899 } ∧
        (∃ p q, errorBody 1899 = p ++ ("between 1900 and 2100" ++ q)) ∧
        (∃ p q, errorBody 1899 = p ++ (toString (1899 : Int) ++ q))) :=
  ⟨by decide, claimC5_validation_error_shape defaultHostEnv 1899 (by decide)⟩

/-- C6. The calendar object built by the non-error branch always has exactly
12 keys, one per lower-cased month name of `locale.en.months`, and its key
insertion order is calendar order january…december, despite the reverse
(`reduceRight`) internal iteration; hence whatever `getCalendarYear` returns
as a calendar has those keys in that order. -/
theorem claimC6_keys_in_calendar_order (env : HostEnv) (year : Int) :
    (buildCalendarYear env year).map Prod.fst = locale.en.months.map jsToLowerCase ∧
      (buildCalendarYear env year).map Prod.fst
        = ["january", "february", "march", "april", "may", "june",
           "july", "august", "september", "october", "november", "december"] ∧
      (buildCalendarYear env year).length = 12 ∧
      (∀ entries, getCalendarYear env year = CalendarResult.calendar entries →
        entries.map Prod.fst
          = ["january", "february", "march", "april", "may", "june",
             "july", "august", "september", "october", "november", "december"]) := by
  have base : monthsEn.map jsToLowerCase
      = ["january", "february", "march", "april", "may", "june",
         "july", "august", "september", "october", "november", "december"] := by
    decide
  have hkeys : (buildCalendarYear env year).map Prod.fst
      = ["january", "february", "march", "april", "may", "june",
         "july", "august", "september", "october", "november", "december"] := base
  refine ⟨rfl, hkeys, rfl, ?_⟩
  intro entries hres
  unfold getCalendarYear at hres
  split at hres
  · simp at hres
  · injection hres with hres
    rw [← hres]
    exact hkeys

/-- C7 counterexample to the claim as stated, which quantifies over every
year: at year 275770 (outside the host date range) the day count computed by
`getDaysInMonth`'s expression is NaN, the source's loop runs zero times, and
the empty list's length (a number, 0) does not equal that NaN day count. -/
theorem claimC7_counterexample :
    getDaysInMonth 275770 2 = none ∧
      listDaysInMonth defaultHostEnv 2 275770 = [] ∧
      some (listDaysInMonth defaultHostEnv 2 275770).length ≠ getDaysInMonth 275770 2 := by
  decide

/-- C7 as amended: whenever the day count of `(month, year)` is an actual
number n (not NaN) — which holds for every month in [1, 12] of every year in
the representable host range, in particular all of [1900, 2100] —
`listDaysInMonth(month, year)` is exactly the ascending list of
`formatDate(month, day, year)` (default locale) for day = 1 … n, and its
length is n; in particular for February its length is 29 in 2024 and 28 in
2023. -/
theorem claimC7_listDaysInMonth_days (env : HostEnv) (month year : Int) (n : Nat)
    (h : getDaysInMonth year month = some n) :
    listDaysInMonth env month year
        = (List.range n).map
            (fun day0 : Nat => formatDate env month ((day0 : Int) + 1) year none) ∧
      (listDaysInMonth env month year).length = n ∧
      (listDaysInMonth env 2 2024).length = 29 ∧
      (listDaysInMonth env 2 2023).length = 28 := by
  refine ⟨listDaysInMonth_eq_map env month year n h, ?_, ?_, ?_⟩
  · rw [listDaysInMonth_eq_map env month year n h]
    simp
  · rw [listDaysInMonth_eq_map env 2 2024 29 (by decide)]
    simp
  · rw [listDaysInMonth_eq_map env 2 2023 28 (by decide)]
    simp

/-- C7 witness at February 2024, whose day count is the number 29. -/
theorem claimC7_witness :
    getDaysInMonth 2024 2 = some 29 ∧
      (listDaysInMonth defaultHostEnv 2 2024).length = 29 :=
  ⟨by decide,
    (claimC7_listDaysInMonth_days defaultHostEnv 2 2024 29 (by decide)).2.1⟩

/-- C8 counterexample: at year 0, month 2 the code returns 28 (the host date
constructor reads year 0 as 1900, which is not a leap year), while the
proleptic Gregorian table of the spec gives 29 (year 0 is divisible by 400);
and at year 275770 (outside the host date range) the code returns NaN rather
than any Gregorian day count. -/
theorem claimC8_counterexample :
    getDaysInMonth 0 2 = some 28 ∧ specDaysInMonth 0 2 = 29 ∧
      getDaysInMonth 275770 2 = none := by
  decide

/-- C8 as amended: for every year outside the host's two-digit range [0, 99]
that lies in the representable host range (here the years [-271820, 275759],
which cover every month; the two boundary years admit only part of their
months) and every month in [1, 12], `getDaysInMonth` returns the proleptic
Gregorian day count with the spec's leap rule; the claim's three concrete
instances hold. -/
theorem claimC8_gregorian_outside_quirk (year month : Int)
    (h1 : year < 0 ∨ 100 ≤ year) (h2 : 1 ≤ month) (h3 : month ≤ 12)
    (h4 : -271820 ≤ year) (h5 : year ≤ 275759) :
    getDaysInMonth year month = some (specDaysInMonth year month) ∧
      getDaysInMonth 2024 2 = some 29 ∧ getDaysInMonth 1900 2 = some 28 ∧
      getDaysInMonth 2000 2 = some 29 := by
  refine ⟨?_, by decide, by decide, by decide⟩
  have hadj : jsYearAdjust year = year := by
    unfold jsYearAdjust
    rw [if_neg]
    omega
  show jsDateDayZeroGetDate year month = some (specDaysInMonth year month)
  rw [jsDateDayZero_months year month h2 h3, hadj]
  rw [if_pos (show jsDateRepresentable year (month - 1) from Or.inl ⟨h4, h5⟩)]
  interval_cases month <;>
    norm_num [daysInGregorianMonth, specDaysInMonth, jsLeap, specLeapYear]

/-- C8 witness at year 2024, month 2. -/
theorem claimC8_witness :
    (((2024 : Int) < 0 ∨ 100 ≤ (2024 : Int)) ∧ 1 ≤ (2 : Int) ∧ (2 : Int) ≤ 12 ∧
        -271820 ≤ (2024 : Int) ∧ (2024 : Int) ≤ 275759) ∧
      getDaysInMonth 2024 2 = some (specDaysInMonth 2024 2) :=
  ⟨⟨Or.inr (by decide), by decide, by decide, by decide, by decide⟩,
    (claimC8_gregorian_outside_quirk 2024 2 (Or.inr (by decide)) (by decide) (by decide)
      (by decide) (by decide)).1⟩

/-- C9. The static locale table maps `en` to the 12 English month names and
`es` to the 12 Spanish month names, in calendar order; it is a plain constant
of the embedding, which no operation mutates. -/
theorem claimC9_locale_table :
    locale.en.months
        = ["January", "February", "March", "April", "May", "June",
           "July", "August", "September", "October", "November", "December"] ∧
      locale.es.months
        = ["enero", "febrero", "marzo", "abril", "mayo", "junio",
           "julio", "agosto", "septiembre", "octubre", "noviembre", "diciembre"] ∧
      locale.en.months.length = 12 ∧ locale.es.months.length = 12 :=
  ⟨rfl, rfl, rfl, rfl⟩

/-- C10. `getCalendarYear` is referentially transparent: two calls with the
same year under the same host environment (the same default-locale renderer)
give structurally identical results. In this pure embedding every host
dependence is the explicit `HostEnv` argument, so the result is a function of
(env, year) alone. -/
theorem claimC10_referentially_transparent (env1 env2 : HostEnv) (year1 year2 : Int)
    (henv : env1 = env2) (hyear : year1 = year2) :
    getCalendarYear env1 year1 = getCalendarYear env2 year2 := by
  rw [henv, hyear]

/-- C10 witness: two identical calls at 2023 under the sample host
environment. -/
theorem claimC10_witness :
    defaultHostEnv = defaultHostEnv ∧ (2023 : Int) = 2023 ∧
      getCalendarYear defaultHostEnv 2023 = getCalendarYear defaultHostEnv 2023 :=
  ⟨rfl, rfl, claimC10_referentially_transparent defaultHostEnv defaultHostEnv 2023 2023 rfl rfl⟩

end CalendarWidgets
